import Mathlib

/-!
Verification of the traffic-light detector node
(`src/ros/src/tl_detector/tl_detector.py`).

The file shallowly embeds the core of `TLDetector`:

* the per-frame debounce/latch block at the end of `image_cb`
  (fields `self.state`, `self.last_state`, `self.last_wp`,
  `self.state_count`, threshold `STATE_COUNT_THRESHOLD`);
* the geometric light selector `get_closest_light`;
* the stubbed `get_closest_waypoint` and `process_traffic_lights`.

Floating-point numbers are modelled by `ℝ`.  The two external library
collaborators used by `get_closest_light` —
`tf.transformations.euler_from_quaternion` and `math.atan2` — are taken
as function parameters, so every theorem about the selector holds for
any implementation of those collaborators.
-/

namespace TLDetector

/-- Light states from `styx_msgs/TrafficLight` (`RED`, `YELLOW`, `GREEN`,
`UNKNOWN`).  The detector only compares states for equality and against
`RED`, so an enumeration is a faithful model of the message constants. -/
inductive TLState where
  | RED
  | YELLOW
  | GREEN
  | UNKNOWN
deriving DecidableEq, Repr

/-- `STATE_COUNT_THRESHOLD = 3` (module constant, line 16). -/
def STATE_COUNT_THRESHOLD : Nat := 3

/-- `MAX_LIGHTS_DISTANCE = 300` (module constant, line 17). -/
def MAX_LIGHTS_DISTANCE : ℝ := 300

/-- `MIN_LIGHTS_DISTANCE = 20` (module constant, line 18). -/
def MIN_LIGHTS_DISTANCE : ℝ := 20

/-- A `geometry_msgs` point; the code reads `.x` and `.y` (and ignores
`.z`) of positions. -/
structure Point3 where
  x : ℝ
  y : ℝ
  z : ℝ

/-- A `geometry_msgs` quaternion `(x, y, z, w)`. -/
structure Quat4 where
  x : ℝ
  y : ℝ
  z : ℝ
  w : ℝ

/-- A `geometry_msgs/Pose`: position plus orientation. -/
structure Pose where
  position : Point3
  orientation : Quat4

/-- A `geometry_msgs/PoseStamped`; the header is never read, so only the
wrapped pose is modelled.  The code accesses `pose.pose.position` and
`pose.pose.orientation`. -/
structure PoseStamped where
  pose : Pose

/-- A `styx_msgs/TrafficLight`: a stamped pose (`light.pose.pose.position`)
and a reported state (`light.state`). -/
structure Light where
  pose : PoseStamped
  state : TLState

/-- The debounce/latch fields of `TLDetector`:
`self.state`, `self.last_state`, `self.last_wp`, `self.state_count`
(initialised at lines 80–83, mutated only by the block at the end of
`image_cb`, lines 123–133). -/
structure DebounceState where
  state : TLState
  last_state : TLState
  last_wp : Int
  state_count : Nat
deriving DecidableEq, Repr

/-- The initial debounce state set in `__init__` (lines 80–83):
`state = UNKNOWN`, `last_state = UNKNOWN`, `last_wp = -1`,
`state_count = 0`. -/
def initDebounce : DebounceState :=
  { state := TLState.UNKNOWN
    last_state := TLState.UNKNOWN
    last_wp := -1
    state_count := 0 }

/-- One execution of the debounce block at the end of `image_cb`
(lines 123–133), fed with the frame's observation
`(light_wp, state) = process_traffic_lights()`:

```
if self.state != state:
    self.state_count = 0
    self.state = state
elif self.state_count >= STATE_COUNT_THRESHOLD:
    self.last_state = self.state
    light_wp = light_wp if state == TrafficLight.RED else -1
    self.last_wp = light_wp
    self.upcoming_red_light_pub.publish(Int32(light_wp))
else:
    self.upcoming_red_light_pub.publish(Int32(self.last_wp))
self.state_count += 1
```

Returns the updated fields together with the value published on
`/traffic_waypoint` for this frame (`none` when the branch taken does
not call `publish`). -/
def debounceStep (s : DebounceState) (light_wp : Int) (st : TLState) :
    DebounceState × Option Int :=
  let r :=
    if s.state ≠ st then
      ({ s with state_count := 0, state := st }, none)
    else if s.state_count ≥ STATE_COUNT_THRESHOLD then
      let wp := if st = TLState.RED then light_wp else -1
      ({ s with last_state := s.state, last_wp := wp }, some wp)
    else
      (s, some s.last_wp)
  ({ r.1 with state_count := r.1.state_count + 1 }, r.2)

/-- Iterate `debounceStep` over a list of per-frame observations
`(light_wp, state)`, collecting the per-frame published values. -/
def runDebounce (s : DebounceState) : List (Int × TLState) → DebounceState × List (Option Int)
  | [] => (s, [])
  | (wp, st) :: rest =>
    let r := debounceStep s wp st
    let t := runDebounce r.1 rest
    (t.1, r.2 :: t.2)

/-- The observation sequence of claim C1: states
`[RED, RED, GREEN, RED, RED, RED]`, each frame carrying the RED stop
waypoint index 42. -/
def c1Observations : List (Int × TLState) :=
  [(42, TLState.RED), (42, TLState.RED), (42, TLState.GREEN),
   (42, TLState.RED), (42, TLState.RED), (42, TLState.RED)]

/-- The mutable latest-value caches and latch fields of `TLDetector`
(`__init__`, lines 49–84), parametric in the image payload type.
`config_stop_line_positions` models `self.config['stop_line_positions']`. -/
structure TLDetectorState (Img : Type) where
  pose : Option PoseStamped
  waypoints : Option (List PoseStamped)
  camera_image : Option Img
  lights : List Light
  config_stop_line_positions : List (ℝ × ℝ)
  has_image : Bool
  state : TLState
  last_state : TLState
  last_wp : Int
  state_count : Nat

/-- `TLDetector.get_closest_waypoint` (lines 186–197): the body is the
stub `return 0` (`#TODO implement`); neither `pose` nor
`self.waypoints` is consulted. -/
def get_closest_waypoint {Img : Type} (s : TLDetectorState Img) (pose : Pose) : Int :=
  0

/-- `TLDetector.process_traffic_lights` (lines 218–240).  The local
`light` is initialised to `None` and never reassigned, so the
`if light:` branch is dead; were it taken, evaluating `return light_wp,
state` would raise a `NameError` (`light_wp` is unbound there), which is
modelled as `none`.  The live path clears `self.waypoints` and returns
`(-1, TrafficLight.UNKNOWN)`. -/
def process_traffic_lights {Img : Type} (s : TLDetectorState Img) :
    Option (TLDetectorState Img × Int × TLState) :=
  let light : Option Light := none
  let _stop_line_positions := s.config_stop_line_positions
  let _car_position : Option Int := s.pose.map fun ps => get_closest_waypoint s ps.pose
  match light with
  | some _ => none
  | none => some ({ s with waypoints := none }, -1, TLState.UNKNOWN)

/-- A concrete detector state used to instantiate theorems: no pose,
an empty (but present) route, no image, no lights. -/
def sampleDetector : TLDetectorState Unit :=
  { pose := none
    waypoints := some []
    camera_image := none
    lights := []
    config_stop_line_positions := []
    has_image := false
    state := TLState.UNKNOWN
    last_state := TLState.UNKNOWN
    last_wp := -1
    state_count := 0 }

/-- A concrete pose at the origin, identity orientation. -/
def ps0 : PoseStamped :=
  { pose := { position := { x := 0, y := 0, z := 0 }
              orientation := { x := 0, y := 0, z := 0, w := 1 } } }

/-- The local helper `dist` inside `get_closest_light` (lines 160–161):
planar Euclidean distance
`math.sqrt((p2.x - p1.x) ** 2 + (p2.y - p1.y) ** 2)`. -/
noncomputable def dist (p1 p2 : Point3) : ℝ :=
  Real.sqrt ((p2.x - p1.x) ^ 2 + (p2.y - p1.y) ^ 2)

/-- The heading-cone test of the selection loop (lines 176–181): the
bearing is `atan2(light.y - pose.y, light.x - pose.x)` and the light is
accepted iff `abs(yaw - heading) < math.pi / 9`.  `atan2` is the
external `math.atan2` collaborator, taken as a parameter. -/
def headingOk (atan2 : ℝ → ℝ → ℝ) (yaw : ℝ) (pos lpos : Point3) : Prop :=
  |yaw - atan2 (lpos.y - pos.y) (lpos.x - pos.x)| < Real.pi / 9

/-- A light passing both tests of the loop body (lines 173–181): planar
distance strictly inside `(MIN_LIGHTS_DISTANCE, MAX_LIGHTS_DISTANCE)`
and bearing inside the heading cone. -/
def isCandidate (atan2 : ℝ → ℝ → ℝ) (yaw : ℝ) (pos : Point3) (l : Light) : Prop :=
  (dist pos l.pose.pose.position < MAX_LIGHTS_DISTANCE ∧
    dist pos l.pose.pose.position > MIN_LIGHTS_DISTANCE) ∧
  headingOk atan2 yaw pos l.pose.pose.position

/-- The candidate test and update of one loop iteration (lines
173–183): when the distance window and heading-cone tests both pass,
`(result, best_distance)` is replaced by this light and its distance;
otherwise the accumulator is kept. -/
noncomputable def selTest (atan2 : ℝ → ℝ → ℝ) (yaw : ℝ) (pos : Point3)
    (acc : Option Light × Option ℝ) (l : Light) : Option Light × Option ℝ :=
  let d := dist pos l.pose.pose.position
  if d < MAX_LIGHTS_DISTANCE ∧ d > MIN_LIGHTS_DISTANCE then
    if |yaw - atan2 (l.pose.pose.position.y - pos.y)
          (l.pose.pose.position.x - pos.x)| < Real.pi / 9 then
      (some l, some d)
    else acc
  else acc

/-- One full iteration of the selection loop (lines 165–183), including
the `continue` that skips a light whose distance is strictly greater
than the best distance seen so far (a light at exactly the best
distance is NOT skipped). -/
noncomputable def selStep (atan2 : ℝ → ℝ → ℝ) (yaw : ℝ) (pos : Point3)
    (acc : Option Light × Option ℝ) (l : Light) : Option Light × Option ℝ :=
  match acc with
  | (res, some bd) =>
    if dist pos l.pose.pose.position > bd then (res, some bd)
    else selTest atan2 yaw pos (res, some bd) l
  | (res, none) => selTest atan2 yaw pos (res, none) l

/-- `TLDetector.get_closest_light` (lines 135–183): `None` guards for
`pose` and `lights`, vehicle yaw taken as the third Euler angle
returned by the external `euler_from_quaternion(x, y, z, w)`
collaborator (a parameter), then a single pass of the selection loop
from `result = None`, `best_distance = None`. -/
noncomputable def get_closest_light
    (euler_from_quaternion : ℝ → ℝ → ℝ → ℝ → ℝ × ℝ × ℝ) (atan2 : ℝ → ℝ → ℝ)
    (pose : Option PoseStamped) (lights : Option (List Light)) : Option Light :=
  match pose with
  | none => none
  | some p =>
    match lights with
    | none => none
    | some ls =>
      let q := p.pose.orientation
      let yaw := (euler_from_quaternion q.x q.y q.z q.w).2.2
      (ls.foldl (selStep atan2 yaw p.pose.position) (none, none)).1

/-- Loop invariant of the selection pass: either nothing has been kept
yet (`result = None`, `best_distance = None`), or the kept light is a
candidate and `best_distance` is exactly its distance. -/
def SelInv (atan2 : ℝ → ℝ → ℝ) (yaw : ℝ) (pos : Point3)
    (acc : Option Light × Option ℝ) : Prop :=
  acc = (none, none) ∨
  ∃ r, acc.1 = some r ∧ acc.2 = some (dist pos r.pose.pose.position) ∧
    isCandidate atan2 yaw pos r

/-- A concrete stand-in for the `euler_from_quaternion` collaborator:
roll, pitch and yaw all 0. -/
def e0 : ℝ → ℝ → ℝ → ℝ → ℝ × ℝ × ℝ := fun _ _ _ _ => (0, 0, 0)

/-- A concrete stand-in for `math.atan2`: bearing 0 everywhere.
Instantiating a theorem with `a0` reflects the real program only when
every bearing the run actually evaluates is of the form
`atan2(0, x)` with `x > 0`, where the real `math.atan2` is also 0;
the concrete runs below evaluate bearings only at such points. -/
def a0 : ℝ → ℝ → ℝ := fun _ _ => 0

/-- A red light 100 units ahead of the origin along the x-axis. -/
def lA : Light :=
  { pose := { pose := { position := { x := 100, y := 0, z := 0 }
                        orientation := { x := 0, y := 0, z := 0, w := 1 } } }
    state := TLState.RED }

/-- A green light at exactly the same position (100, 0) as `lA`:
equal planar distance and equal bearing from the origin,
distinguished from `lA` only by its reported state.  Both lights give
the loop the bearing `atan2(0, 100)`, which is 0 for the real
`math.atan2` just as for the stand-in `a0`. -/
def lC : Light :=
  { pose := { pose := { position := { x := 100, y := 0, z := 0 }
                        orientation := { x := 0, y := 0, z := 0, w := 1 } } }
    state := TLState.GREEN }

/-- A red light 1000 units from the origin: outside the distance
window. -/
def lFar : Light :=
  { pose := { pose := { position := { x := 1000, y := 0, z := 0 }
                        orientation := { x := 0, y := 0, z := 0, w := 1 } } }
    state := TLState.RED }

end TLDetector

namespace TLDetector

/-- C1 (counterexample).  On the code, the observation sequence
`[RED, RED, GREEN, RED, RED, RED]` from the initial debounce state does
NOT commit on the 6th observation: the published sequence is
`[none, -1, none, none, -1, -1]` (state-change frames publish nothing),
not `[-1, -1, -1, -1, -1, 42]`, and the committed waypoint is still `-1`
after all six frames. -/
theorem C1_counterexample :
    (runDebounce initDebounce c1Observations).2 =
      [none, some (-1), none, none, some (-1), some (-1)] ∧
    (runDebounce initDebounce c1Observations).2 ≠
      [some (-1), some (-1), some (-1), some (-1), some (-1), some 42] ∧
    (runDebounce initDebounce c1Observations).1.last_wp = -1 := by
  decide

/-- C1 (amended).  Feeding `[RED, RED, GREEN, RED, RED, RED]` with
threshold 3 from the initial state never changes the committed output:
frames whose observation differs from the previous one publish nothing
and restart the counter at 1, and the pre-increment counter check means
a commit needs the counter built up on *previous* frames to reach 3, so
the three trailing REDs only reach count 2 on the 6th frame.  The
committed output changes to the RED stop waypoint (42) exactly once on
the 7th observation when one more RED is appended. -/
theorem C1_amended_commit_on_seventh :
    (runDebounce initDebounce (c1Observations ++ [(42, TLState.RED)])).2 =
      [none, some (-1), none, none, some (-1), some (-1), some 42] ∧
    (runDebounce initDebounce (c1Observations ++ [(42, TLState.RED)])).1.last_wp = 42 ∧
    (runDebounce initDebounce (c1Observations ++ [(42, TLState.RED)])).1.last_state =
      TLState.RED := by
  decide

/-- C2 (counterexample).  On a frame whose observed state differs from
the previous observation, `state_count` does not end the transition at
0: the branch sets it to 0 but the unconditional trailing
`self.state_count += 1` leaves it at 1. -/
theorem C2_counterexample :
    TLState.RED ≠ TLState.GREEN ∧
    (debounceStep { state := TLState.RED, last_state := TLState.RED,
                    last_wp := 42, state_count := 5 } 7 TLState.GREEN).1.state_count ≠ 0 := by
  decide

/-- C2 (amended).  Across every per-frame transition: when the newly
observed state differs from the previous frame's observed state,
`state_count` is reset to 0 and then, like every frame, incremented, so
it ends the transition at 1; and the committed fields
(`last_state`, `last_wp`) change only on a transition in which the
observation equals the previous observed state and `state_count` has
reached `STATE_COUNT_THRESHOLD`. -/
theorem C2_reset_and_commit_guard (s : DebounceState) (wp : Int) (st : TLState) :
    (s.state ≠ st → (debounceStep s wp st).1.state_count = 1) ∧
    ((debounceStep s wp st).1.last_state ≠ s.last_state ∨
        (debounceStep s wp st).1.last_wp ≠ s.last_wp →
      s.state = st ∧ STATE_COUNT_THRESHOLD ≤ s.state_count) := by
  unfold debounceStep
  by_cases h1 : s.state = st
  · by_cases h2 : s.state_count ≥ STATE_COUNT_THRESHOLD
    · simp [h1, h2]
    · simp [h1, h2]
  · simp [h1]

/-- Witness for C2: a change frame (`RED` then `GREEN`) ends with
`state_count = 1`, and a concrete committing transition (count 3, state
`RED` repeated, waypoint 9) changes the committed fields with the
guard satisfied. -/
theorem C2_witness :
    (debounceStep { state := TLState.RED, last_state := TLState.UNKNOWN,
                    last_wp := -1, state_count := 0 } 5 TLState.GREEN).1.state_count = 1 ∧
    (TLState.RED = TLState.RED ∧ STATE_COUNT_THRESHOLD ≤ 3) :=
  ⟨(C2_reset_and_commit_guard _ 5 TLState.GREEN).1 (by decide),
   (C2_reset_and_commit_guard
      { state := TLState.RED, last_state := TLState.UNKNOWN,
        last_wp := 7, state_count := 3 } 9 TLState.RED).2 (by decide)⟩

/-- C3 (counterexample).  A frame whose observation differs from the
previous observed state publishes nothing: from the initial state
(observed `UNKNOWN`), a `RED` observation takes the reset branch, which
contains no `publish` call. -/
theorem C3_counterexample :
    initDebounce.state ≠ TLState.RED ∧
    (debounceStep initDebounce 42 TLState.RED).2 = none := by
  decide

/-- C3 (amended).  The debounce block publishes exactly one integer —
the committed stop waypoint (`last_wp` after the transition, `-1`
meaning no stop) — on every frame whose observation equals the previous
frame's observed state, and publishes nothing on a frame whose
observation differs (the reset branch has no `publish` call). -/
theorem C3_publish_iff_same_state (s : DebounceState) (wp : Int) (st : TLState) :
    (s.state = st →
      (debounceStep s wp st).2 = some ((debounceStep s wp st).1.last_wp)) ∧
    (s.state ≠ st → (debounceStep s wp st).2 = none) := by
  unfold debounceStep
  by_cases h1 : s.state = st
  · by_cases h2 : s.state_count ≥ STATE_COUNT_THRESHOLD
    · simp [h1, h2]
    · simp [h1, h2]
  · simp [h1]

/-- Witness for C3: from the initial state, an `UNKNOWN` observation
(equal to the previous) publishes the committed waypoint, and a `RED`
observation (different) publishes nothing. -/
theorem C3_witness :
    (debounceStep initDebounce 42 TLState.UNKNOWN).2 =
      some ((debounceStep initDebounce 42 TLState.UNKNOWN).1.last_wp) ∧
    (debounceStep initDebounce 42 TLState.RED).2 = none :=
  ⟨(C3_publish_iff_same_state initDebounce 42 TLState.UNKNOWN).1 rfl,
   (C3_publish_iff_same_state initDebounce 42 TLState.RED).2 (by decide)⟩

/-- C7.  `process_traffic_lights` always returns the degenerate pair
`(-1, UNKNOWN)` together with the successor state: the local `light` is
`None`, so the light-locating `if light:` branch is never taken and no
classified state or located stop waypoint is ever produced. -/
theorem C7_always_degenerate (Img : Type) (s : TLDetectorState Img) :
    process_traffic_lights s =
      some ({ s with waypoints := none }, -1, TLState.UNKNOWN) := rfl

/-- C8.  With no route loaded (`waypoints = none`) the stubbed
`get_closest_waypoint` still returns index 0 instead of failing: the
claimed `NoWaypointsLoaded` error does not exist in the code. -/
theorem C8_stub_ignores_missing_waypoints :
    get_closest_waypoint { sampleDetector with waypoints := none } ps0.pose = 0 := rfl

/-- C9.  `get_closest_waypoint` is the unimplemented stub `return 0`: it
returns 0 for every pose and every cached detector state. -/
theorem C9_stub_returns_zero (Img : Type) (s : TLDetectorState Img) (pose : Pose) :
    get_closest_waypoint s pose = 0 := rfl

/-- C10.  Every call of `process_traffic_lights` that returns the
degenerate `(-1, UNKNOWN)` result clears the cached route
(`self.waypoints = None`) as a side effect, and leaves the other cached
fields (`pose`, `lights`, `camera_image`) unchanged. -/
theorem C10_clears_waypoints_only (Img : Type) (s s1 : TLDetectorState Img)
    (h : process_traffic_lights s = some (s1, -1, TLState.UNKNOWN)) :
    s1.waypoints = none ∧ s1.pose = s.pose ∧ s1.lights = s.lights ∧
      s1.camera_image = s.camera_image := by
  unfold process_traffic_lights at h
  simp only [Option.some.injEq, Prod.mk.injEq] at h
  obtain ⟨h1, -⟩ := h
  subst h1
  exact ⟨rfl, rfl, rfl, rfl⟩

/-- Witness for C10: instantiated at the concrete `sampleDetector`
state, whose route cache is `some []` before the call and `none`
afterwards. -/
theorem C10_witness :
    ({ sampleDetector with waypoints := none } : TLDetectorState Unit).waypoints = none ∧
    ({ sampleDetector with waypoints := none } : TLDetectorState Unit).pose =
      sampleDetector.pose ∧
    ({ sampleDetector with waypoints := none } : TLDetectorState Unit).lights =
      sampleDetector.lights ∧
    ({ sampleDetector with waypoints := none } : TLDetectorState Unit).camera_image =
      sampleDetector.camera_image :=
  C10_clears_waypoints_only Unit sampleDetector _ rfl

end TLDetector

namespace TLDetector

/-- If both loop tests pass, the iteration's test-and-update keeps this
light and its distance. -/
theorem selTest_update (atan2 : ℝ → ℝ → ℝ) (yaw : ℝ) (pos : Point3)
    (acc : Option Light × Option ℝ) (l : Light)
    (h1 : dist pos l.pose.pose.position < MAX_LIGHTS_DISTANCE ∧
      dist pos l.pose.pose.position > MIN_LIGHTS_DISTANCE)
    (h2 : headingOk atan2 yaw pos l.pose.pose.position) :
    selTest atan2 yaw pos acc l = (some l, some (dist pos l.pose.pose.position)) := by
  have h2r : |yaw - atan2 (l.pose.pose.position.y - pos.y)
      (l.pose.pose.position.x - pos.x)| < Real.pi / 9 := h2
  simp only [selTest]
  rw [if_pos h1, if_pos h2r]

/-- If the light is not a candidate, the iteration keeps the
accumulator. -/
theorem selTest_keep (atan2 : ℝ → ℝ → ℝ) (yaw : ℝ) (pos : Point3)
    (acc : Option Light × Option ℝ) (l : Light)
    (h : ¬ isCandidate atan2 yaw pos l) :
    selTest atan2 yaw pos acc l = acc := by
  simp only [selTest]
  by_cases h1 : dist pos l.pose.pose.position < MAX_LIGHTS_DISTANCE ∧
      dist pos l.pose.pose.position > MIN_LIGHTS_DISTANCE
  · rw [if_pos h1]
    by_cases h2 : |yaw - atan2 (l.pose.pose.position.y - pos.y)
        (l.pose.pose.position.x - pos.x)| < Real.pi / 9
    · exact absurd ⟨h1, h2⟩ h
    · rw [if_neg h2]
  · rw [if_neg h1]

/-- With no best distance recorded yet, the loop body is just the
test-and-update. -/
theorem selStep_none (atan2 : ℝ → ℝ → ℝ) (yaw : ℝ) (pos : Point3)
    (res : Option Light) (l : Light) :
    selStep atan2 yaw pos (res, none) l = selTest atan2 yaw pos (res, none) l := rfl

/-- A light strictly farther than the recorded best distance is skipped
(the `continue`). -/
theorem selStep_skip (atan2 : ℝ → ℝ → ℝ) (yaw : ℝ) (pos : Point3)
    (res : Option Light) (bd : ℝ) (l : Light)
    (h : dist pos l.pose.pose.position > bd) :
    selStep atan2 yaw pos (res, some bd) l = (res, some bd) := by
  simp only [selStep]
  rw [if_pos h]

/-- A light not strictly farther than the recorded best distance goes
through the test-and-update. -/
theorem selStep_test (atan2 : ℝ → ℝ → ℝ) (yaw : ℝ) (pos : Point3)
    (res : Option Light) (bd : ℝ) (l : Light)
    (h : ¬ dist pos l.pose.pose.position > bd) :
    selStep atan2 yaw pos (res, some bd) l = selTest atan2 yaw pos (res, some bd) l := by
  simp only [selStep]
  rw [if_neg h]

/-- The loop body preserves the selection invariant. -/
theorem selStep_inv (atan2 : ℝ → ℝ → ℝ) (yaw : ℝ) (pos : Point3)
    (acc : Option Light × Option ℝ) (l : Light) (h : SelInv atan2 yaw pos acc) :
    SelInv atan2 yaw pos (selStep atan2 yaw pos acc l) := by
  obtain ⟨res, obd⟩ := acc
  cases obd with
  | none =>
    have hres : res = none := by
      rcases h with h | ⟨r, h1, h2, h3⟩
      · exact congrArg Prod.fst h
      · exact absurd h2 (by simp)
    subst hres
    rw [selStep_none]
    by_cases hc : isCandidate atan2 yaw pos l
    · rw [selTest_update atan2 yaw pos _ l hc.1 hc.2]
      exact Or.inr ⟨l, rfl, rfl, hc⟩
    · rw [selTest_keep atan2 yaw pos _ l hc]
      exact Or.inl rfl
  | some bd =>
    rcases h with h | ⟨r, h1, h2, h3⟩
    · exact absurd (congrArg Prod.snd h) (by simp)
    · simp only at h1 h2
      by_cases hskip : dist pos l.pose.pose.position > bd
      · rw [selStep_skip atan2 yaw pos res bd l hskip]
        exact Or.inr ⟨r, h1, h2, h3⟩
      · rw [selStep_test atan2 yaw pos res bd l hskip]
        by_cases hc : isCandidate atan2 yaw pos l
        · rw [selTest_update atan2 yaw pos _ l hc.1 hc.2]
          exact Or.inr ⟨l, rfl, rfl, hc⟩
        · rw [selTest_keep atan2 yaw pos _ l hc]
          exact Or.inr ⟨r, h1, h2, h3⟩

/-- The whole selection pass preserves the invariant. -/
theorem foldl_selStep_inv (atan2 : ℝ → ℝ → ℝ) (yaw : ℝ) (pos : Point3)
    (ls : List Light) (acc : Option Light × Option ℝ) (h : SelInv atan2 yaw pos acc) :
    SelInv atan2 yaw pos (ls.foldl (selStep atan2 yaw pos) acc) := by
  induction ls generalizing acc with
  | nil => exact h
  | cons hd tl ih => exact ih _ (selStep_inv atan2 yaw pos acc hd h)

/-- The recorded best distance never increases across one iteration. -/
theorem selStep_best_le (atan2 : ℝ → ℝ → ℝ) (yaw : ℝ) (pos : Point3)
    (acc : Option Light × Option ℝ) (bd : ℝ) (l : Light) (h : acc.2 = some bd) :
    ∃ b2, (selStep atan2 yaw pos acc l).2 = some b2 ∧ b2 ≤ bd := by
  obtain ⟨res, obd⟩ := acc
  simp only at h
  subst h
  by_cases hskip : dist pos l.pose.pose.position > bd
  · rw [selStep_skip atan2 yaw pos res bd l hskip]
    exact ⟨bd, rfl, le_refl bd⟩
  · rw [selStep_test atan2 yaw pos res bd l hskip]
    simp only [selTest]
    by_cases h1 : dist pos l.pose.pose.position < MAX_LIGHTS_DISTANCE ∧
        dist pos l.pose.pose.position > MIN_LIGHTS_DISTANCE
    · rw [if_pos h1]
      by_cases h2 : |yaw - atan2 (l.pose.pose.position.y - pos.y)
          (l.pose.pose.position.x - pos.x)| < Real.pi / 9
      · rw [if_pos h2]
        exact ⟨dist pos l.pose.pose.position, rfl, not_lt.mp hskip⟩
      · rw [if_neg h2]
        exact ⟨bd, rfl, le_refl bd⟩
    · rw [if_neg h1]
      exact ⟨bd, rfl, le_refl bd⟩

/-- The recorded best distance never increases across the rest of the
pass. -/
theorem foldl_best_le (atan2 : ℝ → ℝ → ℝ) (yaw : ℝ) (pos : Point3)
    (ls : List Light) (acc : Option Light × Option ℝ) (bd : ℝ) (h : acc.2 = some bd) :
    ∃ b2, (ls.foldl (selStep atan2 yaw pos) acc).2 = some b2 ∧ b2 ≤ bd := by
  induction ls generalizing acc bd with
  | nil => exact ⟨bd, h, le_refl bd⟩
  | cons hd tl ih =>
    obtain ⟨b1, hb1, hle1⟩ := selStep_best_le atan2 yaw pos acc bd hd h
    obtain ⟨b2, hb2, hle2⟩ := ih (selStep atan2 yaw pos acc hd) b1 hb1
    exact ⟨b2, hb2, le_trans hle2 hle1⟩

/-- After processing a candidate, the recorded best distance is at most
that candidate's distance. -/
theorem selStep_cand_le (atan2 : ℝ → ℝ → ℝ) (yaw : ℝ) (pos : Point3)
    (acc : Option Light × Option ℝ) (l : Light) (hc : isCandidate atan2 yaw pos l) :
    ∃ b2, (selStep atan2 yaw pos acc l).2 = some b2 ∧
      b2 ≤ dist pos l.pose.pose.position := by
  obtain ⟨res, obd⟩ := acc
  cases obd with
  | none =>
    rw [selStep_none, selTest_update atan2 yaw pos _ l hc.1 hc.2]
    exact ⟨dist pos l.pose.pose.position, rfl, le_refl _⟩
  | some bd =>
    by_cases hskip : dist pos l.pose.pose.position > bd
    · rw [selStep_skip atan2 yaw pos res bd l hskip]
      exact ⟨bd, rfl, le_of_lt hskip⟩
    · rw [selStep_test atan2 yaw pos res bd l hskip,
        selTest_update atan2 yaw pos _ l hc.1 hc.2]
      exact ⟨dist pos l.pose.pose.position, rfl, le_refl _⟩

/-- After the whole pass, the recorded best distance is at most the
distance of every candidate in the list. -/
theorem foldl_min (atan2 : ℝ → ℝ → ℝ) (yaw : ℝ) (pos : Point3)
    (ls : List Light) (acc : Option Light × Option ℝ) (c : Light)
    (hmem : c ∈ ls) (hc : isCandidate atan2 yaw pos c) :
    ∃ b2, (ls.foldl (selStep atan2 yaw pos) acc).2 = some b2 ∧
      b2 ≤ dist pos c.pose.pose.position := by
  induction ls generalizing acc with
  | nil => cases hmem
  | cons hd tl ih =>
    rcases List.mem_cons.mp hmem with heq | htl
    · subst heq
      obtain ⟨b1, hb1, hle1⟩ := selStep_cand_le atan2 yaw pos acc c hc
      obtain ⟨b2, hb2, hle2⟩ := foldl_best_le atan2 yaw pos tl _ b1 hb1
      exact ⟨b2, hb2, le_trans hle2 hle1⟩
    · exact ih (selStep atan2 yaw pos acc hd) htl

/-- With no candidate in the list, the pass never leaves the initial
`(None, None)` accumulator. -/
theorem foldl_no_cand (atan2 : ℝ → ℝ → ℝ) (yaw : ℝ) (pos : Point3)
    (ls : List Light) (h : ∀ l ∈ ls, ¬ isCandidate atan2 yaw pos l) :
    ls.foldl (selStep atan2 yaw pos) (none, none) = (none, none) := by
  induction ls with
  | nil => rfl
  | cons hd tl ih =>
    have hstep : selStep atan2 yaw pos (none, none) hd = (none, none) := by
      rw [selStep_none, selTest_keep atan2 yaw pos _ hd (h hd (List.mem_cons_self hd tl))]
    rw [List.foldl_cons, hstep]
    exact ih fun l hl => h l (List.mem_cons_of_mem hd hl)

end TLDetector

namespace TLDetector

/-- The light `lA` is 100 units from the origin. -/
theorem dist_ps0_lA : dist ps0.pose.position lA.pose.pose.position = 100 := by
  show Real.sqrt (((100 : ℝ) - 0) ^ 2 + ((0 : ℝ) - 0) ^ 2) = 100
  rw [show ((100 : ℝ) - 0) ^ 2 + ((0 : ℝ) - 0) ^ 2 = 100 ^ 2 by norm_num]
  exact Real.sqrt_sq (by norm_num)

/-- The light `lC` is also 100 units from the origin. -/
theorem dist_ps0_lC : dist ps0.pose.position lC.pose.pose.position = 100 := by
  show Real.sqrt (((100 : ℝ) - 0) ^ 2 + ((0 : ℝ) - 0) ^ 2) = 100
  rw [show ((100 : ℝ) - 0) ^ 2 + ((0 : ℝ) - 0) ^ 2 = 100 ^ 2 by norm_num]
  exact Real.sqrt_sq (by norm_num)

/-- The light `lFar` is 1000 units from the origin. -/
theorem dist_ps0_lFar : dist ps0.pose.position lFar.pose.pose.position = 1000 := by
  show Real.sqrt (((1000 : ℝ) - 0) ^ 2 + ((0 : ℝ) - 0) ^ 2) = 1000
  rw [show ((1000 : ℝ) - 0) ^ 2 + ((0 : ℝ) - 0) ^ 2 = 1000 ^ 2 by norm_num]
  exact Real.sqrt_sq (by norm_num)

/-- With the constant collaborators `a0` (bearing 0) and yaw 0, `lA` is
a candidate from the origin. -/
theorem cand_lA : isCandidate a0 0 ps0.pose.position lA := by
  refine ⟨⟨?_, ?_⟩, ?_⟩
  · rw [dist_ps0_lA]; norm_num [MAX_LIGHTS_DISTANCE]
  · rw [dist_ps0_lA]; norm_num [MIN_LIGHTS_DISTANCE]
  · show |(0 : ℝ) - 0| < Real.pi / 9
    rw [sub_zero, abs_zero]
    positivity

/-- With the constant collaborators, `lC` is a candidate from the
origin; its bearing point `atan2(0, 100)` is one where `a0` and the
real `math.atan2` agree (both 0). -/
theorem cand_lC : isCandidate a0 0 ps0.pose.position lC := by
  refine ⟨⟨?_, ?_⟩, ?_⟩
  · rw [dist_ps0_lC]; norm_num [MAX_LIGHTS_DISTANCE]
  · rw [dist_ps0_lC]; norm_num [MIN_LIGHTS_DISTANCE]
  · show |(0 : ℝ) - 0| < Real.pi / 9
    rw [sub_zero, abs_zero]
    positivity

/-- On the singleton light set `[lA]`, the selector returns `lA`. -/
theorem run_single_lA : get_closest_light e0 a0 (some ps0) (some [lA]) = some lA := by
  show (selStep a0 0 ps0.pose.position (none, none) lA).1 = some lA
  rw [selStep_none, selTest_update a0 0 ps0.pose.position _ lA cand_lA.1 cand_lA.2]

/-- C4.  Any light returned by `get_closest_light` has planar distance
strictly greater than `MIN_LIGHTS_DISTANCE` (20) and strictly less than
`MAX_LIGHTS_DISTANCE` (300) from the vehicle, and its bearing satisfies
`abs(yaw - atan2(dy, dx)) < pi/9`, for every pose, every light list, and
every implementation of the `euler_from_quaternion` and `atan2`
collaborators. -/
theorem C4_selected_light_constraints (e : ℝ → ℝ → ℝ → ℝ → ℝ × ℝ × ℝ)
    (a : ℝ → ℝ → ℝ) (ps : PoseStamped) (ls : List Light) (l : Light)
    (h : get_closest_light e a (some ps) (some ls) = some l) :
    MIN_LIGHTS_DISTANCE < dist ps.pose.position l.pose.pose.position ∧
    dist ps.pose.position l.pose.pose.position < MAX_LIGHTS_DISTANCE ∧
    headingOk a ((e ps.pose.orientation.x ps.pose.orientation.y
        ps.pose.orientation.z ps.pose.orientation.w).2.2)
      ps.pose.position l.pose.pose.position := by
  have h2 : (ls.foldl
      (selStep a ((e ps.pose.orientation.x ps.pose.orientation.y
          ps.pose.orientation.z ps.pose.orientation.w).2.2) ps.pose.position)
      (none, none)).1 = some l := h
  have hinv := foldl_selStep_inv a
      ((e ps.pose.orientation.x ps.pose.orientation.y
          ps.pose.orientation.z ps.pose.orientation.w).2.2)
      ps.pose.position ls (none, none) (Or.inl rfl)
  rcases hinv with heq | ⟨r, hr1, hr2, hr3⟩
  · rw [heq] at h2
    exact absurd h2 (by simp)
  · rw [hr1] at h2
    injection h2 with h3
    subst h3
    exact ⟨hr3.1.2, hr3.1.1, hr3.2⟩

/-- Witness for C4 at the concrete run `run_single_lA`. -/
theorem C4_witness :
    MIN_LIGHTS_DISTANCE < dist ps0.pose.position lA.pose.pose.position ∧
    dist ps0.pose.position lA.pose.pose.position < MAX_LIGHTS_DISTANCE ∧
    headingOk a0 ((e0 ps0.pose.orientation.x ps0.pose.orientation.y
        ps0.pose.orientation.z ps0.pose.orientation.w).2.2)
      ps0.pose.position lA.pose.pose.position :=
  C4_selected_light_constraints e0 a0 ps0 [lA] lA run_single_lA

/-- C5 (counterexample).  `lA` and `lC` sit at the very same point
(100, 0), so they are candidates at exactly equal distance (100) and
equal bearing from the origin pose, and the only bearing the loop
evaluates is `atan2(0, 100)`, where `a0` coincides with the real
`math.atan2` (both 0).  On the list `[lA, lC]` the selector returns
the *last*-seen `lC`, not the first-seen `lA` the claim predicts: a
light at exactly the current best distance is not skipped by the
`continue`, so it overwrites the kept light. -/
theorem C5_counterexample :
    isCandidate a0 0 ps0.pose.position lA ∧
    isCandidate a0 0 ps0.pose.position lC ∧
    dist ps0.pose.position lA.pose.pose.position =
      dist ps0.pose.position lC.pose.pose.position ∧
    lA ≠ lC ∧
    get_closest_light e0 a0 (some ps0) (some [lA, lC]) = some lC := by
  refine ⟨cand_lA, cand_lC, ?_, ?_, ?_⟩
  · rw [dist_ps0_lA, dist_ps0_lC]
  · intro hAC
    have hs : TLState.RED = TLState.GREEN := congrArg (fun t => t.state) hAC
    exact (by decide : TLState.RED ≠ TLState.GREEN) hs
  · show (selStep a0 0 ps0.pose.position
        (selStep a0 0 ps0.pose.position (none, none) lA) lC).1 = some lC
    rw [selStep_none, selTest_update a0 0 ps0.pose.position _ lA cand_lA.1 cand_lA.2]
    rw [selStep_test a0 0 ps0.pose.position _ _ lC
        (by rw [dist_ps0_lA, dist_ps0_lC]; exact lt_irrefl _)]
    rw [selTest_update a0 0 ps0.pose.position _ lC cand_lC.1 cand_lC.2]

/-- C5 (amended).  Among candidates, `get_closest_light` returns one
with the minimum distance; when two candidates are at exactly equal
distance, the one encountered *last* in the input list wins (the loop
skips only strictly farther lights, so an equal-distance candidate
overwrites the kept one), shown here for any two-element tie. -/
theorem C5_min_distance_last_tie :
    (∀ (e : ℝ → ℝ → ℝ → ℝ → ℝ × ℝ × ℝ) (a : ℝ → ℝ → ℝ) (ps : PoseStamped)
        (ls : List Light) (l : Light),
      get_closest_light e a (some ps) (some ls) = some l →
      ∀ c ∈ ls,
        isCandidate a ((e ps.pose.orientation.x ps.pose.orientation.y
            ps.pose.orientation.z ps.pose.orientation.w).2.2) ps.pose.position c →
        dist ps.pose.position l.pose.pose.position ≤
          dist ps.pose.position c.pose.pose.position) ∧
    (∀ (e : ℝ → ℝ → ℝ → ℝ → ℝ × ℝ × ℝ) (a : ℝ → ℝ → ℝ) (ps : PoseStamped)
        (A B : Light),
      isCandidate a ((e ps.pose.orientation.x ps.pose.orientation.y
          ps.pose.orientation.z ps.pose.orientation.w).2.2) ps.pose.position A →
      isCandidate a ((e ps.pose.orientation.x ps.pose.orientation.y
          ps.pose.orientation.z ps.pose.orientation.w).2.2) ps.pose.position B →
      dist ps.pose.position A.pose.pose.position =
        dist ps.pose.position B.pose.pose.position →
      get_closest_light e a (some ps) (some [A, B]) = some B) := by
  constructor
  · intro e a ps ls l h c hmem hc
    have h2 : (ls.foldl
        (selStep a ((e ps.pose.orientation.x ps.pose.orientation.y
            ps.pose.orientation.z ps.pose.orientation.w).2.2) ps.pose.position)
        (none, none)).1 = some l := h
    have hinv := foldl_selStep_inv a
        ((e ps.pose.orientation.x ps.pose.orientation.y
            ps.pose.orientation.z ps.pose.orientation.w).2.2)
        ps.pose.position ls (none, none) (Or.inl rfl)
    rcases hinv with heq | ⟨r, hr1, hr2, hr3⟩
    · rw [heq] at h2
      exact absurd h2 (by simp)
    · rw [hr1] at h2
      injection h2 with h3
      subst h3
      obtain ⟨b2, hb2, hle⟩ := foldl_min a
          ((e ps.pose.orientation.x ps.pose.orientation.y
              ps.pose.orientation.z ps.pose.orientation.w).2.2)
          ps.pose.position ls (none, none) c hmem hc
      rw [hr2] at hb2
      injection hb2 with h4
      rw [h4]
      exact hle
  · intro e a ps A B hA hB hd
    show (selStep a ((e ps.pose.orientation.x ps.pose.orientation.y
          ps.pose.orientation.z ps.pose.orientation.w).2.2) ps.pose.position
        (selStep a ((e ps.pose.orientation.x ps.pose.orientation.y
            ps.pose.orientation.z ps.pose.orientation.w).2.2) ps.pose.position
          (none, none) A) B).1 = some B
    rw [selStep_none, selTest_update a _ ps.pose.position _ A hA.1 hA.2]
    rw [selStep_test a _ ps.pose.position _ _ B
        (by rw [← hd]; exact lt_irrefl _)]
    rw [selTest_update a _ ps.pose.position _ B hB.1 hB.2]

/-- Witness for C5: the min-distance part at the singleton run, and the
tie part at the concrete co-located equal-distance pair `lA`, `lC`
(whose only evaluated bearing, `atan2(0, 100)`, is a point where `a0`
and the real `math.atan2` agree). -/
theorem C5_witness :
    dist ps0.pose.position lA.pose.pose.position ≤
      dist ps0.pose.position lA.pose.pose.position ∧
    get_closest_light e0 a0 (some ps0) (some [lA, lC]) = some lC :=
  ⟨C5_min_distance_last_tie.1 e0 a0 ps0 [lA] lA run_single_lA lA
      (List.mem_singleton_self lA) cand_lA,
   C5_min_distance_last_tie.2 e0 a0 ps0 lA lC cand_lA cand_lC
      (by rw [dist_ps0_lA, dist_ps0_lC])⟩

/-- C6.  `get_closest_light` returns `None` when the pose is absent,
when the light set is absent, when the light set is empty, and when no
light passes both the distance-window and heading-cone tests; being a
plain function of its arguments (with the two collaborators as
parameters), it is side-effect-free. -/
theorem C6_returns_none_cases :
    (∀ (e : ℝ → ℝ → ℝ → ℝ → ℝ × ℝ × ℝ) (a : ℝ → ℝ → ℝ)
        (lights : Option (List Light)), get_closest_light e a none lights = none) ∧
    (∀ (e : ℝ → ℝ → ℝ → ℝ → ℝ × ℝ × ℝ) (a : ℝ → ℝ → ℝ)
        (pose : Option PoseStamped), get_closest_light e a pose none = none) ∧
    (∀ (e : ℝ → ℝ → ℝ → ℝ → ℝ × ℝ × ℝ) (a : ℝ → ℝ → ℝ) (ps : PoseStamped),
      get_closest_light e a (some ps) (some []) = none) ∧
    (∀ (e : ℝ → ℝ → ℝ → ℝ → ℝ × ℝ × ℝ) (a : ℝ → ℝ → ℝ) (ps : PoseStamped)
        (ls : List Light),
      (∀ l ∈ ls, ¬ isCandidate a ((e ps.pose.orientation.x ps.pose.orientation.y
          ps.pose.orientation.z ps.pose.orientation.w).2.2) ps.pose.position l) →
      get_closest_light e a (some ps) (some ls) = none) := by
  refine ⟨fun e a lights => rfl, fun e a pose => ?_, fun e a ps => rfl,
    fun e a ps ls h => ?_⟩
  · cases pose with
    | none => rfl
    | some p => rfl
  · show (ls.foldl (selStep a ((e ps.pose.orientation.x ps.pose.orientation.y
        ps.pose.orientation.z ps.pose.orientation.w).2.2) ps.pose.position)
      (none, none)).1 = none
    rw [foldl_no_cand a ((e ps.pose.orientation.x ps.pose.orientation.y
        ps.pose.orientation.z ps.pose.orientation.w).2.2) ps.pose.position ls h]

/-- Witness for C6: all four cases at concrete inputs; in the last one
the only light, `lFar`, fails the distance window (distance 1000). -/
theorem C6_witness :
    get_closest_light e0 a0 none (some [lA]) = none ∧
    get_closest_light e0 a0 (some ps0) none = none ∧
    get_closest_light e0 a0 (some ps0) (some []) = none ∧
    get_closest_light e0 a0 (some ps0) (some [lFar]) = none := by
  refine ⟨C6_returns_none_cases.1 e0 a0 (some [lA]),
    C6_returns_none_cases.2.1 e0 a0 (some ps0),
    C6_returns_none_cases.2.2.1 e0 a0 ps0,
    C6_returns_none_cases.2.2.2 e0 a0 ps0 [lFar] ?_⟩
  intro l hl
  rw [List.mem_singleton] at hl
  subst hl
  intro hc
  have h300 := hc.1.1
  rw [dist_ps0_lFar] at h300
  norm_num [MAX_LIGHTS_DISTANCE] at h300

end TLDetector
